import Mathlib

/-!
# Verification of the Transit batch-evaluation operator

A shallow embedding of `src/transit/transit_op/transit_op.cc`:

* `transitStep` / `transitRunAux` / `transitFunctorCPU` embed the CPU
  specialization `TransitFunctor<CPUDevice, T>::operator()`, the sequential
  loop `for (int i = 0; i < size; ++i) delta[i] = compute_delta(grid_size,
  grid, z[i], r[i])`.  The per-element routine `compute_delta` is declared in
  a header that is not part of this translation unit, so the development is
  parametric in it (`cd : Int → List T → T → T → T`).
* `TransitOp.Compute` embeds the binding kernel `TransitOp::Compute`:
  element-count extraction, the `z`/`r` length check, output allocation with
  `z`'s shape, the `kint32max` ceiling check, and the `static_cast<int>`
  narrowing of the 64-bit element counts, modelled by `toInt32`.
* Buffers are `List T`; tensors carry a `shape` and a flat `data` buffer,
  with `numElements` the product of the dimensions as in the host framework.
-/

namespace Transit

/-- `tensorflow::kint32max`, the largest signed 32-bit integer. -/
def kint32max : Nat := 2 ^ 31 - 1

/-- Two's-complement narrowing of a nonnegative 64-bit count to a signed
32-bit `int`, as performed by `static_cast<int>` in `TransitOp::Compute`. -/
def toInt32 (n : Nat) : Int := ((n : Int) + 2 ^ 31) % 2 ^ 32 - 2 ^ 31

/-- The four buffers visible to `TransitFunctor<CPUDevice, T>::operator()`:
the read-only model grid, the two sample arrays, and the output array. -/
structure TransitBuffers (T : Type) where
  grid : List T
  z : List T
  r : List T
  delta : List T
deriving DecidableEq

variable {T : Type} [Inhabited T]

/-- One iteration of the CPU loop body:
`delta[i] = compute_delta(grid_size, grid, z[i], r[i]);`.
Only the `delta` buffer is assigned. -/
def transitStep (cd : Int → List T → T → T → T) (grid_size : Int)
    (st : TransitBuffers T) (i : Nat) : TransitBuffers T :=
  { st with
    delta := st.delta.set i (cd grid_size st.grid (st.z.getD i default) (st.r.getD i default)) }

/-- The CPU loop, running `n` further iterations starting at index `i`. -/
def transitRunAux (cd : Int → List T → T → T → T) (grid_size : Int) :
    Nat → Nat → TransitBuffers T → TransitBuffers T
  | 0, _, st => st
  | n + 1, i, st => transitRunAux cd grid_size n (i + 1) (transitStep cd grid_size st i)

/-- `TransitFunctor<CPUDevice, T>::operator()` acting on the full buffer
state: `for (int i = 0; i < size; ++i)` runs `size.toNat` iterations from
index `0` (a non-positive `size` runs the loop zero times). -/
def transitFunctorCPURun (cd : Int → List T → T → T → T) (grid_size : Int)
    (size : Int) (st : TransitBuffers T) : TransitBuffers T :=
  transitRunAux cd grid_size size.toNat 0 st

/-- `TransitFunctor<CPUDevice, T>::operator()`: the contents of the output
buffer `delta` after the sequential CPU loop. -/
def transitFunctorCPU (cd : Int → List T → T → T → T) (grid_size : Int)
    (grid : List T) (size : Int) (z r : List T) (delta : List T) : List T :=
  (transitFunctorCPURun cd grid_size size ⟨grid, z, r, delta⟩).delta

/-- Modelled from the spec: the CUDA specialization
`TransitFunctor<GPUDevice, T>` is registered by `REGISTER_GPU` but its
kernel source is not part of this translation unit.  Per the spec it is the
data-parallel (many-lane) execution strategy in which each lane `j` of the
output buffer independently writes
`delta[j] = compute_delta(grid_size, grid, z[j], r[j])` for `j < size`, with
no cross-lane communication. -/
def transitFunctorGPU (cd : Int → List T → T → T → T) (grid_size : Int)
    (grid : List T) (size : Int) (z r : List T) (delta : List T) : List T :=
  (List.range delta.length).map fun j =>
    if j < size.toNat then cd grid_size grid (z.getD j default) (r.getD j default)
    else delta.getD j default

/-- A host-framework tensor: a shape and a flat data buffer. -/
structure Tensor (T : Type) where
  shape : List Nat
  data : List T
deriving DecidableEq

/-- `Tensor::NumElements()`: the product of the dimensions. -/
def Tensor.numElements (t : Tensor T) : Nat := t.shape.prod

/-- Outcome of `TransitOp::Compute`: either an invalid-argument error
signaled through `OP_REQUIRES`, or the allocated output tensor. -/
inductive ComputeResult (T : Type) where
  | invalidArgument (msg : String)
  | ok (delta : Tensor T)
deriving DecidableEq

/-- `TransitOp::Compute` for the CPU kernel: reads the element counts,
requires `r` and `z` to have the same number of elements, allocates the
output with `z`'s shape, requires `size ≤ kint32max`, and invokes the
functor with both counts narrowed to 32 bits. -/
def TransitOp.Compute (cd : Int → List T → T → T → T)
    (grid_t z_t r_t : Tensor T) : ComputeResult T :=
  let grid_size := grid_t.numElements
  let size := z_t.numElements
  if r_t.numElements = size then
    if size ≤ kint32max then
      ComputeResult.ok ⟨z_t.shape,
        transitFunctorCPU cd (toInt32 grid_size) grid_t.data (toInt32 size)
          z_t.data r_t.data (List.replicate size default)⟩
    else ComputeResult.invalidArgument "Too many elements in tensor"
  else ComputeResult.invalidArgument "z and r must have the same number of elements"

/-! ## Basic lemmas about the CPU loop -/

theorem transitRunAux_grid (cd : Int → List T → T → T → T) (gs : Int) :
    ∀ (n i : Nat) (st : TransitBuffers T), (transitRunAux cd gs n i st).grid = st.grid
  | 0, _, _ => rfl
  | n + 1, i, st => transitRunAux_grid cd gs n (i + 1) (transitStep cd gs st i)

theorem transitRunAux_z (cd : Int → List T → T → T → T) (gs : Int) :
    ∀ (n i : Nat) (st : TransitBuffers T), (transitRunAux cd gs n i st).z = st.z
  | 0, _, _ => rfl
  | n + 1, i, st => transitRunAux_z cd gs n (i + 1) (transitStep cd gs st i)

theorem transitRunAux_r (cd : Int → List T → T → T → T) (gs : Int) :
    ∀ (n i : Nat) (st : TransitBuffers T), (transitRunAux cd gs n i st).r = st.r
  | 0, _, _ => rfl
  | n + 1, i, st => transitRunAux_r cd gs n (i + 1) (transitStep cd gs st i)

theorem transitRunAux_delta_length (cd : Int → List T → T → T → T) (gs : Int) :
    ∀ (n i : Nat) (st : TransitBuffers T),
      (transitRunAux cd gs n i st).delta.length = st.delta.length
  | 0, _, _ => rfl
  | n + 1, i, st => by
    rw [transitRunAux, transitRunAux_delta_length cd gs n (i + 1) (transitStep cd gs st i)]
    simp [transitStep]

/-- Indices outside the iteration window `[i, i + n)` are untouched. -/
theorem transitRunAux_delta_get_outside (cd : Int → List T → T → T → T) (gs : Int) :
    ∀ (n i : Nat) (st : TransitBuffers T) (j : Nat), (j < i ∨ i + n ≤ j) →
      (transitRunAux cd gs n i st).delta[j]? = st.delta[j]?
  | 0, _, _, _, _ => rfl
  | n + 1, i, st, j, h => by
    rw [transitRunAux,
      transitRunAux_delta_get_outside cd gs n (i + 1) (transitStep cd gs st i) j (by omega)]
    have hij : i ≠ j := by omega
    simp [transitStep, List.getElem?_set_ne hij]

/-- Indices inside the iteration window receive the value computed from the
original buffers, `compute_delta(grid_size, grid, z[j], r[j])`. -/
theorem transitRunAux_delta_get_inside (cd : Int → List T → T → T → T) (gs : Int) :
    ∀ (n i : Nat) (st : TransitBuffers T) (j : Nat),
      i ≤ j → j < i + n → j < st.delta.length →
      (transitRunAux cd gs n i st).delta[j]? =
        some (cd gs st.grid (st.z.getD j default) (st.r.getD j default))
  | 0, i, _, j, h1, h2, _ => absurd h2 (by omega)
  | n + 1, i, st, j, h1, h2, h3 => by
    rw [transitRunAux]
    rcases eq_or_lt_of_le h1 with h | h
    · subst h
      rw [transitRunAux_delta_get_outside cd gs n (i + 1) (transitStep cd gs st i) i
        (Or.inl (by omega))]
      simp [transitStep, List.getElem?_set_eq_of_lt _ h3]
    · rw [transitRunAux_delta_get_inside cd gs n (i + 1) (transitStep cd gs st i) j h
        (by omega) (by simpa [transitStep] using h3)]
      simp [transitStep]

/-- The value of every cell of the output buffer after the CPU loop:
cells with index below `size` hold the freshly computed delta, cells at or
above `size` keep their previous contents. -/
theorem transitFunctorCPU_getElem (cd : Int → List T → T → T → T) (gs : Int)
    (grid : List T) (size : Nat) (z r delta : List T)
    (hd : size ≤ delta.length) (j : Nat) :
    (transitFunctorCPU cd gs grid (size : Int) z r delta)[j]? =
      if j < size then some (cd gs grid (z.getD j default) (r.getD j default))
      else delta[j]? := by
  unfold transitFunctorCPU transitFunctorCPURun
  rw [Int.toNat_natCast]
  by_cases hj : j < size
  · rw [transitRunAux_delta_get_inside cd gs size 0 ⟨grid, z, r, delta⟩ j
      (Nat.zero_le j) (by omega) (by simpa using lt_of_lt_of_le hj hd)]
    simp [hj]
  · rw [transitRunAux_delta_get_outside cd gs size 0 ⟨grid, z, r, delta⟩ j (by omega)]
    simp [hj]

theorem transitFunctorCPU_length (cd : Int → List T → T → T → T) (gs : Int)
    (grid : List T) (size : Int) (z r delta : List T) :
    (transitFunctorCPU cd gs grid size z r delta).length = delta.length :=
  transitRunAux_delta_length cd gs size.toNat 0 ⟨grid, z, r, delta⟩

/-! ## Concrete instances used to exercise the theorems -/

/-- A concrete stand-in for the per-element routine `compute_delta`, used to
instantiate the parametric theorems on explicit inputs. -/
def cdW : Int → List Int → Int → Int → Int :=
  fun gs grid z r => gs + grid.length + 2 * z + 3 * r

/-- A second concrete stand-in, pointwise different from `cdW`. -/
def cdW0 : Int → List Int → Int → Int → Int := fun _ _ _ _ => 100

/-! ## Claim theorems about the batch evaluator -/

/-- C1: for every call of the batch evaluator with a grid of length
`grid_size`, arrays `z` and `r` of length `size`, and an output array
`delta` of length `size`, the evaluation writes
`delta[i] = compute_delta(grid_size, grid, z[i], r[i])` for every index
`i < size` and writes nothing else: every cell at index `≥ size` keeps its
previous contents and the buffer length is unchanged. -/
theorem transit_batch_eval_spec (cd : Int → List T → T → T → T)
    (grid_size size : Nat) (grid z r delta : List T)
    (hg : grid.length = grid_size) (hz : z.length = size)
    (hr : r.length = size) (hd : delta.length = size) :
    (∀ j : Nat,
        (transitFunctorCPU cd (grid_size : Int) grid (size : Int) z r delta)[j]? =
          if j < size then
            some (cd (grid_size : Int) grid (z.getD j default) (r.getD j default))
          else delta[j]?)
      ∧ (transitFunctorCPU cd (grid_size : Int) grid (size : Int) z r delta).length
          = delta.length :=
  ⟨fun j => transitFunctorCPU_getElem cd (grid_size : Int) grid size z r delta hd.ge j,
    transitFunctorCPU_length cd (grid_size : Int) grid (size : Int) z r delta⟩

theorem transit_batch_eval_spec_witness :
    (([10, 9] : List Int).length = 2 ∧ ([4, 5] : List Int).length = 2 ∧
        ([6, 7] : List Int).length = 2 ∧ ([0, 0] : List Int).length = 2)
      ∧ ((∀ j : Nat,
            (transitFunctorCPU cdW ((2 : Nat) : Int) [10, 9] ((2 : Nat) : Int)
                [4, 5] [6, 7] [0, 0])[j]? =
              if j < 2 then
                some (cdW ((2 : Nat) : Int) [10, 9] (([4, 5] : List Int).getD j default)
                  (([6, 7] : List Int).getD j default))
              else ([0, 0] : List Int)[j]?)
          ∧ (transitFunctorCPU cdW ((2 : Nat) : Int) [10, 9] ((2 : Nat) : Int)
              [4, 5] [6, 7] [0, 0]).length = ([0, 0] : List Int).length) :=
  ⟨⟨rfl, rfl, rfl, rfl⟩,
    transit_batch_eval_spec cdW 2 2 [10, 9] [4, 5] [6, 7] [0, 0] rfl rfl rfl rfl⟩

/-- C6: the sequential CPU execution strategy and the data-parallel GPU
execution strategy produce identical output buffers on all inputs; the
choice of device never affects the result. -/
theorem transit_device_equivalence (cd : Int → List T → T → T → T) (gs : Int)
    (grid : List T) (size : Int) (z r delta : List T) :
    transitFunctorCPU cd gs grid size z r delta =
      transitFunctorGPU cd gs grid size z r delta := by
  apply List.ext_getElem?
  intro j
  by_cases hlen : j < delta.length
  · by_cases hj : j < size.toNat
    · rw [show (transitFunctorCPU cd gs grid size z r delta)[j]? = _ from
        transitRunAux_delta_get_inside cd gs size.toNat 0 ⟨grid, z, r, delta⟩ j
          (Nat.zero_le j) (by omega) (by simpa using hlen)]
      have hj' : ((j : Int) < size) := by omega
      simp [transitFunctorGPU, List.getElem?_range hlen, hj']
    · rw [show (transitFunctorCPU cd gs grid size z r delta)[j]? = _ from
        transitRunAux_delta_get_outside cd gs size.toNat 0 ⟨grid, z, r, delta⟩ j
          (by omega)]
      have hj' : ¬((j : Int) < size) := by omega
      simp [transitFunctorGPU, List.getElem?_range hlen, hj',
        List.getElem?_eq_getElem hlen]
  · rw [List.getElem?_eq_none, List.getElem?_eq_none]
    · simp [transitFunctorGPU]
      omega
    · rw [transitFunctorCPU_length]
      omega

/-- C7: evaluating the batch on sample arrays permuted by `p` yields the
output permuted by the same `p`: each output element depends only on its
own sample pair. -/
theorem transit_perm_equivariance (cd : Int → List T → T → T → T) (gs : Int)
    (grid : List T) (size : Nat) (z r delta : List T) (p : Equiv.Perm (Fin size))
    (hz : z.length = size) (hr : r.length = size) (hd : delta.length = size)
    (j : Fin size) :
    (transitFunctorCPU cd gs grid (size : Int)
        (List.ofFn fun k => z.getD (p k) default)
        (List.ofFn fun k => r.getD (p k) default) delta)[(j : Nat)]? =
      (transitFunctorCPU cd gs grid (size : Int) z r delta)[((p j : Fin size) : Nat)]? := by
  rw [transitFunctorCPU_getElem cd gs grid size _ _ delta hd.ge (j : Nat),
    transitFunctorCPU_getElem cd gs grid size z r delta hd.ge ((p j : Fin size) : Nat)]
  have hj : (j : Nat) < size := j.isLt
  have hpj : ((p j : Fin size) : Nat) < size := (p j).isLt
  rw [if_pos hj, if_pos hpj]
  have hofFn : ∀ (w : List T),
      (List.ofFn fun k => w.getD (p k) default).getD (j : Nat) default =
        w.getD ((p j : Fin size) : Nat) default := by
    intro w
    rw [List.getD_eq_getElem?_getD,
      List.getElem?_eq_getElem (by simpa [List.length_ofFn] using hj),
      List.getElem_ofFn]
    simp
  rw [hofFn z, hofFn r]

theorem transit_perm_equivariance_witness :
    (([4, 5] : List Int).length = 2 ∧ ([6, 7] : List Int).length = 2 ∧
        ([0, 0] : List Int).length = 2)
      ∧ (transitFunctorCPU cdW 3 [10, 9] ((2 : Nat) : Int)
            (List.ofFn fun k =>
              ([4, 5] : List Int).getD ((Equiv.swap 0 1 : Equiv.Perm (Fin 2)) k) default)
            (List.ofFn fun k =>
              ([6, 7] : List Int).getD ((Equiv.swap 0 1 : Equiv.Perm (Fin 2)) k) default)
            [0, 0])[((0 : Fin 2) : Nat)]? =
          (transitFunctorCPU cdW 3 [10, 9] ((2 : Nat) : Int)
            [4, 5] [6, 7] [0, 0])[(((Equiv.swap 0 1 : Equiv.Perm (Fin 2)) (0 : Fin 2) : Fin 2) : Nat)]? :=
  ⟨⟨rfl, rfl, rfl⟩,
    transit_perm_equivariance cdW 3 [10, 9] 2 [4, 5] [6, 7] [0, 0]
      (Equiv.swap 0 1) rfl rfl rfl 0⟩

/-- C8: the batch evaluation is deterministic — two invocations whose
inputs (per-element routine, grid size, grid, batch size, samples, and
initial output buffer) are identical produce identical output buffers. -/
theorem transit_deterministic (cd cd' : Int → List T → T → T → T) (gs gs' : Int)
    (grid grid' : List T) (size size' : Int) (z z' r r' delta delta' : List T)
    (h : cd = cd' ∧ gs = gs' ∧ grid = grid' ∧ size = size' ∧ z = z' ∧ r = r' ∧
      delta = delta') :
    transitFunctorCPU cd gs grid size z r delta =
      transitFunctorCPU cd' gs' grid' size' z' r' delta' := by
  obtain ⟨h1, h2, h3, h4, h5, h6, h7⟩ := h
  subst h1; subst h2; subst h3; subst h4; subst h5; subst h6; subst h7
  rfl

theorem transit_deterministic_witness :
    (cdW = cdW ∧ (5 : Int) = 5 ∧ ([10, 9] : List Int) = [10, 9] ∧ (2 : Int) = 2 ∧
        ([4, 5] : List Int) = [4, 5] ∧ ([6, 7] : List Int) = [6, 7] ∧
        ([0, 0] : List Int) = [0, 0])
      ∧ transitFunctorCPU cdW 5 [10, 9] 2 [4, 5] [6, 7] [0, 0] =
          transitFunctorCPU cdW 5 [10, 9] 2 [4, 5] [6, 7] [0, 0] :=
  ⟨⟨rfl, rfl, rfl, rfl, rfl, rfl, rfl⟩,
    transit_deterministic cdW cdW 5 5 [10, 9] [10, 9] 2 2 [4, 5] [4, 5]
      [6, 7] [6, 7] [0, 0] [0, 0] ⟨rfl, rfl, rfl, rfl, rfl, rfl, rfl⟩⟩

/-- C9: the batch evaluation never mutates the grid (nor the sample
buffers): after the call their contents equal their contents before it,
and only the `delta` output buffer is written (its final contents are the
functor's result). -/
theorem transit_grid_immutable (cd : Int → List T → T → T → T) (gs size : Int)
    (st : TransitBuffers T) :
    (transitFunctorCPURun cd gs size st).grid = st.grid ∧
      (transitFunctorCPURun cd gs size st).z = st.z ∧
      (transitFunctorCPURun cd gs size st).r = st.r ∧
      (transitFunctorCPURun cd gs size st).delta =
        transitFunctorCPU cd gs st.grid size st.z st.r st.delta :=
  ⟨transitRunAux_grid cd gs size.toNat 0 st,
    transitRunAux_z cd gs size.toNat 0 st,
    transitRunAux_r cd gs size.toNat 0 st,
    by cases st; rfl⟩

/-! ## Lemmas about the narrowing cast -/

theorem toInt32_of_le {n : Nat} (h : n ≤ kint32max) : toInt32 n = (n : Int) := by
  unfold kint32max at h
  unfold toInt32
  omega

theorem toInt32_neg_of_high {n : Nat} (h1 : 2 ^ 31 ≤ n) (h2 : n < 2 ^ 32) :
    toInt32 n < 0 := by
  unfold toInt32
  omega

theorem toInt32_ne_of_gt {n : Nat} (h1 : kint32max < n) (h2 : n < 2 ^ 32) :
    toInt32 n ≠ (n : Int) := by
  unfold kint32max at h1
  unfold toInt32
  omega

/-! ## Claim theorems about the binding kernel `TransitOp::Compute` -/

/-- C2: when `z` and `r` have different numbers of elements, the binding
kernel signals an invalid-argument error, and the core is never invoked:
the outcome is the same for every per-element routine. -/
theorem transit_length_mismatch_rejected (cd cd' : Int → List T → T → T → T)
    (grid_t z_t r_t : Tensor T) (h : r_t.numElements ≠ z_t.numElements) :
    TransitOp.Compute cd grid_t z_t r_t =
        ComputeResult.invalidArgument "z and r must have the same number of elements"
      ∧ TransitOp.Compute cd grid_t z_t r_t = TransitOp.Compute cd' grid_t z_t r_t := by
  unfold TransitOp.Compute
  simp [h]

theorem transit_length_mismatch_rejected_witness :
    ((Tensor.mk [2] ([0, 0] : List Int)).numElements ≠
        (Tensor.mk [3] ([0, 0, 0] : List Int)).numElements)
      ∧ (TransitOp.Compute cdW (Tensor.mk [4] [1, 2, 3, 4]) (Tensor.mk [3] [0, 0, 0])
            (Tensor.mk [2] [0, 0]) =
          ComputeResult.invalidArgument "z and r must have the same number of elements"
        ∧ TransitOp.Compute cdW (Tensor.mk [4] [1, 2, 3, 4]) (Tensor.mk [3] [0, 0, 0])
            (Tensor.mk [2] [0, 0]) =
          TransitOp.Compute cdW0 (Tensor.mk [4] [1, 2, 3, 4]) (Tensor.mk [3] [0, 0, 0])
            (Tensor.mk [2] [0, 0])) :=
  ⟨by decide,
    transit_length_mismatch_rejected cdW cdW0 (Tensor.mk [4] [1, 2, 3, 4])
      (Tensor.mk [3] [0, 0, 0]) (Tensor.mk [2] [0, 0]) (by decide)⟩

/-- C3 (amended): `TransitOp::Compute` performs no validation of the grid
size.  A call whose grid has zero elements, and which passes the `z`/`r`
length check and the 32-bit size ceiling, is not rejected: the core is
invoked with `grid_size == 0` and its result is returned, so the core
cannot assume `grid_size ≥ 1`. -/
theorem transit_empty_grid_reaches_core (cd : Int → List T → T → T → T)
    (grid_t z_t r_t : Tensor T) (h0 : grid_t.numElements = 0)
    (hr : r_t.numElements = z_t.numElements) (hs : z_t.numElements ≤ kint32max) :
    TransitOp.Compute cd grid_t z_t r_t =
      ComputeResult.ok ⟨z_t.shape,
        transitFunctorCPU cd 0 grid_t.data (toInt32 z_t.numElements)
          z_t.data r_t.data (List.replicate z_t.numElements default)⟩ := by
  unfold TransitOp.Compute
  have h32 : toInt32 grid_t.numElements = 0 := by
    rw [h0]
    decide
  simp [hr, hs, h32]

/-- A probe per-element routine that returns the `grid_size` argument it
was handed, making the value reaching the core observable in the output. -/
def cdProbe : Int → List Int → Int → Int → Int := fun gs _ _ _ => gs

theorem transit_empty_grid_reaches_core_witness :
    ((Tensor.mk [0] ([] : List Int)).numElements = 0 ∧
        (Tensor.mk [1] ([9] : List Int)).numElements =
          (Tensor.mk [1] ([7] : List Int)).numElements ∧
        (Tensor.mk [1] ([7] : List Int)).numElements ≤ kint32max)
      ∧ TransitOp.Compute cdW (Tensor.mk [0] []) (Tensor.mk [1] [7]) (Tensor.mk [1] [9]) =
          ComputeResult.ok ⟨[1],
            transitFunctorCPU cdW 0 [] (toInt32 (Tensor.mk [1] ([7] : List Int)).numElements)
              [7] [9] (List.replicate (Tensor.mk [1] ([7] : List Int)).numElements default)⟩ :=
  ⟨⟨by decide, by decide, by decide⟩,
    transit_empty_grid_reaches_core cdW (Tensor.mk [0] []) (Tensor.mk [1] [7])
      (Tensor.mk [1] [9]) (by decide) (by decide) (by decide)⟩

/-- Counterexample to C3 as stated: with an empty grid (`grid_size == 0`)
and otherwise valid inputs, `TransitOp::Compute` does not signal an
invalid-argument error — it returns `ok`, and the probe routine records in
the output that the core ran with `grid_size == 0`. -/
theorem transit_empty_grid_not_rejected :
    (Tensor.mk [0] ([] : List Int)).numElements = 0
      ∧ TransitOp.Compute cdProbe (Tensor.mk [0] []) (Tensor.mk [1] [7])
          (Tensor.mk [1] [9]) = ComputeResult.ok (Tensor.mk [1] [0]) := by
  constructor
  · decide
  · decide

/-- C4: when the number of elements of `z` exceeds the signed 32-bit index
ceiling `kint32max`, the binding kernel signals an invalid-argument error
and the core is never invoked: the outcome is the same for every
per-element routine. -/
theorem transit_oversized_batch_rejected (cd cd' : Int → List T → T → T → T)
    (grid_t z_t r_t : Tensor T) (h : kint32max < z_t.numElements) :
    (∃ msg, TransitOp.Compute cd grid_t z_t r_t = ComputeResult.invalidArgument msg)
      ∧ TransitOp.Compute cd grid_t z_t r_t = TransitOp.Compute cd' grid_t z_t r_t := by
  unfold TransitOp.Compute
  by_cases hr : r_t.numElements = z_t.numElements
  · simp [hr, Nat.not_le.mpr h]
  · simp [hr]

theorem transit_oversized_batch_rejected_witness :
    (kint32max < (Tensor.mk [2 ^ 31] ([] : List Int)).numElements)
      ∧ ((∃ msg, TransitOp.Compute cdW (Tensor.mk [1] [3]) (Tensor.mk [2 ^ 31] [])
            (Tensor.mk [2 ^ 31] []) = ComputeResult.invalidArgument msg)
        ∧ TransitOp.Compute cdW (Tensor.mk [1] [3]) (Tensor.mk [2 ^ 31] [])
            (Tensor.mk [2 ^ 31] []) =
          TransitOp.Compute cdW0 (Tensor.mk [1] [3]) (Tensor.mk [2 ^ 31] [])
            (Tensor.mk [2 ^ 31] [])) :=
  ⟨by decide,
    transit_oversized_batch_rejected cdW cdW0 (Tensor.mk [1] [3])
      (Tensor.mk [2 ^ 31] []) (Tensor.mk [2 ^ 31] []) (by decide)⟩

/-- C5: every successful call returns an output tensor with exactly the
shape of `z`, and hence the same number of elements. -/
theorem transit_shape_preservation (cd : Int → List T → T → T → T)
    (grid_t z_t r_t : Tensor T) (t : Tensor T)
    (h : TransitOp.Compute cd grid_t z_t r_t = ComputeResult.ok t) :
    t.shape = z_t.shape ∧ t.numElements = z_t.numElements := by
  unfold TransitOp.Compute at h
  by_cases hr : r_t.numElements = z_t.numElements
  · by_cases hs : z_t.numElements ≤ kint32max
    · simp [hr, hs] at h
      subst h
      exact ⟨rfl, congrArg List.prod rfl⟩
    · rw [if_pos hr, if_neg hs] at h
      exact absurd h (by simp)
  · rw [if_neg hr] at h
    exact absurd h (by simp)

theorem transit_shape_preservation_witness :
    TransitOp.Compute cdW (Tensor.mk [1] ([5] : List Int)) (Tensor.mk [1] [2])
        (Tensor.mk [1] [3]) = ComputeResult.ok (Tensor.mk [1] [15])
      ∧ (Tensor.mk [1] ([15] : List Int)).shape = (Tensor.mk [1] ([2] : List Int)).shape
      ∧ (Tensor.mk [1] ([15] : List Int)).numElements =
          (Tensor.mk [1] ([2] : List Int)).numElements :=
  ⟨by decide,
    (transit_shape_preservation cdW (Tensor.mk [1] [5]) (Tensor.mk [1] [2])
        (Tensor.mk [1] [3]) (Tensor.mk [1] [15]) (by decide)).1,
    (transit_shape_preservation cdW (Tensor.mk [1] [5]) (Tensor.mk [1] [2])
        (Tensor.mk [1] [3]) (Tensor.mk [1] [15]) (by decide)).2⟩

/-- C10: the 32-bit ceiling is enforced only on `size`, never on
`grid_size`: whenever the length check and the size ceiling pass, the core
is invoked regardless of the grid's element count, with `grid_size`
narrowed by the unchecked two's-complement cast `toInt32`; for a grid of
more than `kint32max` elements the narrowed value differs from the true
count, and is negative for counts in `[2^31, 2^32)`. -/
theorem transit_grid_size_truncation (cd : Int → List T → T → T → T)
    (grid_t z_t r_t : Tensor T)
    (hr : r_t.numElements = z_t.numElements) (hs : z_t.numElements ≤ kint32max) :
    (TransitOp.Compute cd grid_t z_t r_t =
        ComputeResult.ok ⟨z_t.shape,
          transitFunctorCPU cd (toInt32 grid_t.numElements) grid_t.data
            (toInt32 z_t.numElements) z_t.data r_t.data
            (List.replicate z_t.numElements default)⟩)
      ∧ (kint32max < grid_t.numElements → grid_t.numElements < 2 ^ 32 →
          toInt32 grid_t.numElements ≠ (grid_t.numElements : Int))
      ∧ (2 ^ 31 ≤ grid_t.numElements → grid_t.numElements < 2 ^ 32 →
          toInt32 grid_t.numElements < 0) := by
  refine ⟨?_, fun h1 h2 => toInt32_ne_of_gt h1 h2, fun h1 h2 => toInt32_neg_of_high h1 h2⟩
  unfold TransitOp.Compute
  simp [hr, hs]

theorem transit_grid_size_truncation_witness :
    ((Tensor.mk [1] ([4] : List Int)).numElements =
        (Tensor.mk [1] ([4] : List Int)).numElements ∧
      (Tensor.mk [1] ([4] : List Int)).numElements ≤ kint32max)
      ∧ ((TransitOp.Compute cdW (Tensor.mk [2 ^ 31 + 5] ([] : List Int))
            (Tensor.mk [1] [4]) (Tensor.mk [1] [4]) =
          ComputeResult.ok ⟨[1],
            transitFunctorCPU cdW
              (toInt32 (Tensor.mk [2 ^ 31 + 5] ([] : List Int)).numElements) []
              (toInt32 (Tensor.mk [1] ([4] : List Int)).numElements) [4] [4]
              (List.replicate (Tensor.mk [1] ([4] : List Int)).numElements default)⟩)
        ∧ (kint32max < (Tensor.mk [2 ^ 31 + 5] ([] : List Int)).numElements →
            (Tensor.mk [2 ^ 31 + 5] ([] : List Int)).numElements < 2 ^ 32 →
            toInt32 (Tensor.mk [2 ^ 31 + 5] ([] : List Int)).numElements ≠
              ((Tensor.mk [2 ^ 31 + 5] ([] : List Int)).numElements : Int))
        ∧ (2 ^ 31 ≤ (Tensor.mk [2 ^ 31 + 5] ([] : List Int)).numElements →
            (Tensor.mk [2 ^ 31 + 5] ([] : List Int)).numElements < 2 ^ 32 →
            toInt32 (Tensor.mk [2 ^ 31 + 5] ([] : List Int)).numElements < 0)) :=
  ⟨⟨rfl, by decide⟩,
    transit_grid_size_truncation cdW (Tensor.mk [2 ^ 31 + 5] [])
      (Tensor.mk [1] [4]) (Tensor.mk [1] [4]) rfl (by decide)⟩

end Transit
